import Mathlib

/-!
Verification of the fall-detection / medicine-reminder core of the
VOIS-and-Team-89 repository, as a shallow embedding in Lean 4.

Part 1 embeds `src/src/alerts/alert_controller.py` (class `AlertController`)
and `src/src/decision_engine/state_machine.py` (class `FallStateMachine`).
States and postures are the Python strings used by the source; machine
counters are `Nat`.  The two dispatch functions `send_guardian_alert` and
`send_gsm_alert` (imported modules, opaque side-effecting channels) are
modelled as boolean events emitted by one handling step.
-/

/-- State of `AlertController` (`alert_controller.py`, lines 2-5): the
`alert_sent` flag, the tick counter `timer`, and the buzzer's on/off state
(the `buzzer` collaborator only receives `start` / `stop`). -/
structure AlertCtrl where
  alert_sent : Bool
  timer : Nat
  buzzer_on : Bool
  deriving Repr, DecidableEq

/-- Events emitted by one `handle` step: whether `buzzer.start()` was
called, whether `send_guardian_alert()` ran, whether `send_gsm_alert()`
ran. -/
structure AlertEvents where
  buzzer_start : Bool
  guardian : Bool
  gsm : Bool
  deriving Repr, DecidableEq

/-- `AlertController.reset` (lines 27-30): stop the buzzer, clear
`alert_sent`, zero the timer. -/
def AlertCtrl.reset (c : AlertCtrl) : AlertCtrl :=
  { c with buzzer_on := false, alert_sent := false, timer := 0 }

/-- `AlertController.handle(state, user_response)` (lines 7-25), returning
the successor controller state and the events of this step.  In the
`"ALERT"` branch the source starts the buzzer, increments the timer, then
processes an `"ok"` acknowledgement by calling `reset`, then fires the
guardian alert when `timer == 5 and not alert_sent`, then fires the GSM
alert when `timer == 10`.  Any other `state` just calls `reset`. -/
def AlertCtrl.handle (c : AlertCtrl) (state : String) (user_response : Option String) :
    AlertCtrl × AlertEvents :=
  if state = "ALERT" then
    let ca : AlertCtrl := { c with buzzer_on := true, timer := c.timer + 1 }
    let cb : AlertCtrl := if user_response = some "ok" then ca.reset else ca
    if cb.timer = 5 ∧ cb.alert_sent = false then
      let cc : AlertCtrl := { cb with alert_sent := true }
      (cc, { buzzer_start := true, guardian := true, gsm := decide (cc.timer = 10) })
    else
      (cb, { buzzer_start := true, guardian := false, gsm := decide (cb.timer = 10) })
  else
    (c.reset, { buzzer_start := false, guardian := false, gsm := false })

/-- The controller as built by `AlertController.__init__` (lines 2-5):
`alert_sent = False`, `timer = 0`, buzzer not yet started. -/
def AlertCtrl.init : AlertCtrl := ⟨false, 0, false⟩

/-- Run a maximal sequence of consecutive `handle` calls, every one with
`state == "ALERT"`, feeding the listed `user_response` values; returns
the final controller state and the event trace. -/
def AlertCtrl.runAlert (c : AlertCtrl) : List (Option String) → AlertCtrl × List AlertEvents
  | [] => (c, [])
  | r :: rs =>
    let step := c.handle "ALERT" r
    let rest := step.1.runAlert rs
    (rest.1, step.2 :: rest.2)

/-- Number of `send_guardian_alert()` executions in an event trace. -/
def guardianCount (es : List AlertEvents) : Nat := (es.filter (·.guardian)).length

/-- Number of `send_gsm_alert()` executions in an event trace. -/
def gsmCount (es : List AlertEvents) : Nat := (es.filter (·.gsm)).length

/-- State of `FallStateMachine` (`state_machine.py`, lines 1-4): the state
string and the `fall_timer` counter. -/
structure FallSM where
  state : String
  fall_timer : Nat
  deriving Repr, DecidableEq

/-- The machine as built by `FallStateMachine.__init__`. -/
def FallSM.init : FallSM := ⟨"NORMAL", 0⟩

/-- `FallStateMachine.update(spike, posture, inactive)` (lines 6-22). -/
def FallSM.update (m : FallSM) (spike : Bool) (posture : String) (inactive : Bool) : FallSM :=
  if m.state = "NORMAL" then
    if spike then { m with state := "POSSIBLE_FALL", fall_timer := 0 } else m
  else if m.state = "POSSIBLE_FALL" then
    let m' : FallSM := { m with fall_timer := m.fall_timer + 1 }
    if posture = "lying" ∧ inactive then { m' with state := "CONFIRMED_FALL" }
    else if m'.fall_timer > 3 then { m' with state := "NORMAL" }
    else m'
  else if m.state = "CONFIRMED_FALL" then
    { m with state := "ALERT" }
  else
    m

/-- One sample tick of input to the state machine. -/
structure Tick where
  spike : Bool
  posture : String
  inactive : Bool
  deriving Repr, DecidableEq

/-- A harmless default tick (no spike, upright, active), used only for
out-of-range list indexing. -/
def Tick.default : Tick := ⟨false, "upright", false⟩

/-- The confirmation conjunction of one tick: `posture == "lying" and
inactive`. -/
def Tick.conj (t : Tick) : Prop := t.posture = "lying" ∧ t.inactive = true

instance (t : Tick) : Decidable t.conj := by unfold Tick.conj; infer_instance

/-- Feed a sequence of ticks through the state machine. -/
def FallSM.run (m : FallSM) (l : List Tick) : FallSM :=
  l.foldl (fun m t => m.update t.spike t.posture t.inactive) m

/-- C4: `FallStateMachine.update` implements exactly the specified
transition table: from `NORMAL` a spike moves to `POSSIBLE_FALL` with the
counter reset to 0 (no spike: no change); from `POSSIBLE_FALL` the counter
is incremented and the state moves to `CONFIRMED_FALL` iff
`posture == "lying"` and `inactive`, else back to `NORMAL` once the
incremented counter exceeds 3; from `CONFIRMED_FALL` to `ALERT`
unconditionally; from `ALERT` the state never changes for any input. -/
theorem C4_transition_table (t : Nat) (spike : Bool) (p : String) (ia : Bool) :
    (FallSM.update ⟨"NORMAL", t⟩ spike p ia =
      if spike then ⟨"POSSIBLE_FALL", 0⟩ else ⟨"NORMAL", t⟩) ∧
    (FallSM.update ⟨"POSSIBLE_FALL", t⟩ spike p ia =
      if p = "lying" ∧ ia = true then ⟨"CONFIRMED_FALL", t + 1⟩
      else if t + 1 > 3 then ⟨"NORMAL", t + 1⟩
      else ⟨"POSSIBLE_FALL", t + 1⟩) ∧
    (FallSM.update ⟨"CONFIRMED_FALL", t⟩ spike p ia = ⟨"ALERT", t⟩) ∧
    ((FallSM.update ⟨"ALERT", t⟩ spike p ia).state = "ALERT") := by
  refine ⟨?_, ?_, ?_, ?_⟩ <;> simp [FallSM.update]

/-- Counting events in a trace: `guardianCount` and `gsmCount` over a cons. -/
theorem guardianCount_cons (e : AlertEvents) (es : List AlertEvents) :
    guardianCount (e :: es) = (if e.guardian then 1 else 0) + guardianCount es := by
  by_cases h : e.guardian <;> simp [guardianCount, List.filter, h, Nat.add_comm]

theorem gsmCount_cons (e : AlertEvents) (es : List AlertEvents) :
    gsmCount (e :: es) = (if e.gsm then 1 else 0) + gsmCount es := by
  by_cases h : e.gsm <;> simp [gsmCount, List.filter, h, Nat.add_comm]

/-- Characterization of a run of ALERT steps in which no acknowledgement is
processed, started from a controller whose `alert_sent` flag agrees with
"the timer has already passed 5": the guardian alert fires exactly when the
timer crosses 5, the GSM alert exactly when it crosses 10. -/
theorem runAlert_noack_counts (rs : List (Option String)) (h : ∀ r ∈ rs, r ≠ some "ok")
    (t : Nat) (b : Bool) :
    guardianCount ((AlertCtrl.mk (decide (5 ≤ t)) t b).runAlert rs).2 =
      (if t < 5 ∧ 5 ≤ t + rs.length then 1 else 0) ∧
    gsmCount ((AlertCtrl.mk (decide (5 ≤ t)) t b).runAlert rs).2 =
      (if t < 10 ∧ 10 ≤ t + rs.length then 1 else 0) := by
  induction rs generalizing t b with
  | nil =>
    refine ⟨?_, ?_⟩ <;> simp [AlertCtrl.runAlert, guardianCount, gsmCount] <;> split <;> omega
  | cons r rs ih =>
    have hr : r ≠ some "ok" := h r (by simp)
    have h' : ∀ x ∈ rs, x ≠ some "ok" := fun x hx => h x (by simp [hx])
    by_cases ht : t = 4
    · subst ht
      have hstep : (AlertCtrl.mk (decide (5 ≤ 4)) 4 b).handle "ALERT" r =
          (AlertCtrl.mk (decide (5 ≤ 5)) 5 true,
           { buzzer_start := true, guardian := true, gsm := false }) := by
        simp [AlertCtrl.handle, hr]
      have hih := ih h' 5 true
      simp only [AlertCtrl.runAlert, hstep, guardianCount_cons, gsmCount_cons, hih.1, hih.2]
      refine ⟨?_, ?_⟩ <;>
        · simp [List.length_cons]
          first
          | omega
          | (split_ifs <;> omega)
    · have hsent : (decide (5 ≤ t + 1)) = (decide (5 ≤ t)) := by
        rcases Nat.lt_or_ge t 4 with h4 | h4
        · have h1 : ¬ 5 ≤ t + 1 := by omega
          have h2 : ¬ 5 ≤ t := by omega
          simp [h1, h2]
        · have h1 : 5 ≤ t + 1 := by omega
          have h2 : 5 ≤ t := by omega
          simp [h1, h2]
      have hcond : ¬ (t + 1 = 5 ∧ decide (5 ≤ t) = false) := by
        rintro ⟨h5, hsf⟩
        rw [decide_eq_false_iff_not] at hsf
        omega
      have hstep : (AlertCtrl.mk (decide (5 ≤ t)) t b).handle "ALERT" r =
          (AlertCtrl.mk (decide (5 ≤ t + 1)) (t + 1) true,
           { buzzer_start := true, guardian := false, gsm := decide (t + 1 = 10) }) := by
        simp only [AlertCtrl.handle, AlertCtrl.reset, if_pos rfl, if_true, if_neg hr, if_neg hcond, hsent]
      have hih := ih h' (t + 1) true
      simp only [AlertCtrl.runAlert, hstep, guardianCount_cons, gsmCount_cons, hih.1, hih.2]
      refine ⟨?_, ?_⟩ <;>
        · simp [List.length_cons]
          first
          | omega
          | (split_ifs <;> omega)

/-- The acknowledgement-safety invariant of reachable controller states:
if the guardian alert has not been dispatched yet, the timer is below 5. -/
def GoodCtrl (c : AlertCtrl) : Prop := c.alert_sent = false → c.timer ≤ 4

/-- One ALERT handling step preserves the invariant `GoodCtrl`. -/
theorem goodCtrl_handle (c : AlertCtrl) (r : Option String) (hc : GoodCtrl c) :
    GoodCtrl (c.handle "ALERT" r).1 := by
  unfold GoodCtrl at *
  by_cases hr : r = some "ok"
  · simp [AlertCtrl.handle, AlertCtrl.reset, hr]
  · simp only [AlertCtrl.handle, AlertCtrl.reset, if_pos rfl, if_true, if_neg hr]
    by_cases hcond : c.timer + 1 = 5 ∧ c.alert_sent = false
    · simp [hcond]
    · simp only [if_neg hcond]
      intro hs
      have h5 : c.timer + 1 ≠ 5 := fun h5 => hcond ⟨h5, hs⟩
      have := hc hs
      omega

/-- If a step fires the GSM alert, the guardian alert had already been
dispatched when the step began (given the invariant). -/
theorem gsm_step_sent (c : AlertCtrl) (r : Option String) (hc : GoodCtrl c)
    (hg : (c.handle "ALERT" r).2.gsm = true) : c.alert_sent = true := by
  unfold GoodCtrl at hc
  by_cases hr : r = some "ok"
  · simp [AlertCtrl.handle, AlertCtrl.reset, hr] at hg
  · simp only [AlertCtrl.handle, AlertCtrl.reset, if_pos rfl, if_true, if_neg hr] at hg
    by_cases hcond : c.timer + 1 = 5 ∧ c.alert_sent = false
    · simp [hcond] at hg
    · simp only [if_neg hcond, decide_eq_true_eq] at hg
      cases hcs : c.alert_sent with
      | true => rfl
      | false => exact absurd (hc hcs) (by omega)

/-- If `alert_sent` holds after a step, either the guardian alert fired in
that step or it already held before. -/
theorem sent_step (c : AlertCtrl) (r : Option String)
    (hs : (c.handle "ALERT" r).1.alert_sent = true) :
    (c.handle "ALERT" r).2.guardian = true ∨ c.alert_sent = true := by
  by_cases hr : r = some "ok"
  · simp [AlertCtrl.handle, AlertCtrl.reset, hr] at hs
  · simp only [AlertCtrl.handle, AlertCtrl.reset, if_pos rfl, if_true, if_neg hr] at hs ⊢
    by_cases hcond : c.timer + 1 = 5 ∧ c.alert_sent = false
    · simp [hcond]
    · simp only [if_neg hcond] at hs ⊢
      exact Or.inr hs

/-- In any run of ALERT steps from a state satisfying the invariant, a GSM
dispatch at position `i` is preceded by a guardian dispatch at some `j < i`,
unless the guardian alert predates the run. -/
theorem run_gsm_ordering (rs : List (Option String)) (c : AlertCtrl) (hc : GoodCtrl c)
    (i : Nat) (hi : ((c.runAlert rs).2.getD i ⟨false, false, false⟩).gsm = true) :
    (∃ j < i, ((c.runAlert rs).2.getD j ⟨false, false, false⟩).guardian = true) ∨
      c.alert_sent = true := by
  induction rs generalizing c i with
  | nil => simp [AlertCtrl.runAlert, List.getD] at hi
  | cons r rs ih =>
    cases i with
    | zero =>
      right
      exact gsm_step_sent c r hc (by simpa [AlertCtrl.runAlert] using hi)
    | succ i =>
      have hi' : (((c.handle "ALERT" r).1.runAlert rs).2.getD i ⟨false, false, false⟩).gsm
          = true := by simpa [AlertCtrl.runAlert] using hi
      rcases ih (c.handle "ALERT" r).1 (goodCtrl_handle c r hc) i hi' with ⟨j, hj, hgj⟩ | hsent
      · exact Or.inl ⟨j + 1, by omega, by simpa [AlertCtrl.runAlert] using hgj⟩
      · rcases sent_step c r hsent with hfire | hold
        · exact Or.inl ⟨0, by omega, by simpa [AlertCtrl.runAlert] using hfire⟩
        · exact Or.inr hold

/-- C1: whenever an acknowledgement (`user_response == "ok"`) is handled in
an `ALERT` step, `handle` resets the controller (zeroing the timer) before
evaluating the `timer == 10` expiry condition, so the urgent-tier dispatch
`send_gsm_alert` is never executed in that same handling step, and the
step leaves the timer at 0. -/
theorem C1_ack_suppresses_urgent (c : AlertCtrl) :
    ((c.handle "ALERT" (some "ok")).2.gsm = false) ∧
    ((c.handle "ALERT" (some "ok")).1.timer = 0) := by
  simp [AlertCtrl.handle, AlertCtrl.reset]

/-- C2 counterexample: one maximal run of 11 consecutive ALERT handle calls
(from a fresh controller) containing an acknowledgement at the 6th tick.
The acknowledgement resets `timer` and `alert_sent` while the state stays
ALERT, so `send_guardian_alert` fires twice in this single run (ticks 5 and
11) — not exactly once as the claim states. -/
theorem C2_counterexample :
    guardianCount (AlertCtrl.init.runAlert
      [none, none, none, none, none, some "ok", none, none, none, none, none]).2 = 2 ∧
    guardianCount (AlertCtrl.init.runAlert
      [none, none, none, none, none, some "ok", none, none, none, none, none]).2 ≠ 1 := by
  decide

/-- C2 (amended): in any maximal run of consecutive ALERT handle calls from
a fresh controller during which no acknowledgement (`"ok"`) is processed,
the soft-tier dispatch `send_guardian_alert` fires exactly once when the
run lasts at least 5 ticks (else never), and the urgent-tier dispatch
`send_gsm_alert` fires exactly once when the run lasts at least 10 ticks
(else never); in particular each fires at most once.  (A processed
acknowledgement resets the counters and both dispatches can recur.) -/
theorem C2_amended (rs : List (Option String)) (h : ∀ r ∈ rs, r ≠ some "ok") :
    guardianCount (AlertCtrl.init.runAlert rs).2 = (if 5 ≤ rs.length then 1 else 0) ∧
    gsmCount (AlertCtrl.init.runAlert rs).2 = (if 10 ≤ rs.length then 1 else 0) := by
  have h0 := runAlert_noack_counts rs h 0 false
  have hinit : AlertCtrl.init = AlertCtrl.mk (decide (5 ≤ 0)) 0 false := by decide
  rw [hinit]
  refine ⟨?_, ?_⟩
  · rw [h0.1]; split <;> split <;> omega
  · rw [h0.2]; split <;> split <;> omega

/-- C2 witness: a 10-tick acknowledgement-free ALERT run fires the guardian
alert once and the GSM alert once. -/
theorem C2_amended_witness :
    guardianCount (AlertCtrl.init.runAlert (List.replicate 10 none)).2 = 1 ∧
    gsmCount (AlertCtrl.init.runAlert (List.replicate 10 none)).2 = 1 := by
  have h := C2_amended (List.replicate 10 none) (by decide)
  simpa using h

/-- C3 counterexample: on the very first tick in which the state enters
ALERT (fresh controller, no response), the buzzer is started but the
soft-tier guardian dispatch is NOT executed in that same handling step
(it only fires on the 5th tick), refuting the immediacy part of the
claim. -/
theorem C3_counterexample :
    (AlertCtrl.init.handle "ALERT" none).2.guardian = false ∧
    (AlertCtrl.init.handle "ALERT" none).2.buzzer_start = true := by
  decide

/-- C3 (amended): on the first ALERT tick the elderly-device alert (the
buzzer) is started immediately, but the soft-tier guardian dispatch does
not fire in that step (it fires on the 5th consecutive un-acknowledged
ALERT tick); and within one maximal ALERT run from a fresh controller
every urgent-tier dispatch is preceded by an earlier soft-tier dispatch. -/
theorem C3_amended (r0 : Option String) (rs : List (Option String)) :
    ((AlertCtrl.init.handle "ALERT" r0).2.buzzer_start = true) ∧
    ((AlertCtrl.init.handle "ALERT" r0).2.guardian = false) ∧
    (∀ i, ((AlertCtrl.init.runAlert rs).2.getD i ⟨false, false, false⟩).gsm = true →
      ∃ j < i, ((AlertCtrl.init.runAlert rs).2.getD j ⟨false, false, false⟩).guardian = true) := by
  refine ⟨?_, ?_, ?_⟩
  · by_cases hr : r0 = some "ok" <;> simp [AlertCtrl.handle, AlertCtrl.reset, AlertCtrl.init, hr]
  · by_cases hr : r0 = some "ok" <;> simp [AlertCtrl.handle, AlertCtrl.reset, AlertCtrl.init, hr]
  · intro i hi
    rcases run_gsm_ordering rs AlertCtrl.init (by intro _; simp [AlertCtrl.init]) i hi with h | h
    · exact h
    · simp [AlertCtrl.init] at h

/-- C3 witness: in a 10-tick acknowledgement-free ALERT run the GSM
dispatch at tick 10 (index 9) is preceded by a guardian dispatch. -/
theorem C3_amended_witness :
    ∃ j < 9, ((AlertCtrl.init.runAlert (List.replicate 10 none)).2.getD j
      ⟨false, false, false⟩).guardian = true :=
  (C3_amended none (List.replicate 10 none)).2.2 9 (by decide)

/-- Input-sequence hypothesis: the confirmation conjunction
(`posture == "lying" and inactive`) never holds within `w` ticks after a
spike tick. -/
def NoConjNearSpike (w : Nat) (l : List Tick) : Prop :=
  ∀ k < l.length, ∀ i < k, k - i ≤ w →
    (l.getD i Tick.default).spike = true → ¬ (l.getD k Tick.default).conj

instance (w : Nat) (l : List Tick) : Decidable (NoConjNearSpike w l) := by
  unfold NoConjNearSpike
  infer_instance

/-- The hypothesis is closed under dropping the first tick. -/
theorem noConjNearSpike_tail (w : Nat) (x : Tick) (xs : List Tick)
    (h : NoConjNearSpike w (x :: xs)) : NoConjNearSpike w xs := by
  intro k hk i hi hw hs
  have hk' : k + 1 < (x :: xs).length := by simp; omega
  have := h (k + 1) hk' (i + 1) (by omega) (by omega)
    (by simpa [List.getD_cons_succ] using hs)
  simpa [List.getD_cons_succ] using this

theorem default_not_conj : ¬ Tick.default.conj := by decide

/-- The out-of-range default tick never satisfies the conjunction. -/
theorem getD_not_conj_of_ge (l : List Tick) (k : Nat) (h : l.length ≤ k) :
    ¬ (l.getD k Tick.default).conj := by
  rw [List.getD_eq_default _ _ h]
  exact default_not_conj

/-- Invariant carried through a protected run: the machine is `NORMAL`, or
it is in `POSSIBLE_FALL` with timer at most 3 and the conjunction false on
the remaining ticks of the current 4-tick window. -/
def SafeInv (m : FallSM) (l : List Tick) : Prop :=
  m.state = "NORMAL" ∨
    (m.state = "POSSIBLE_FALL" ∧ m.fall_timer ≤ 3 ∧
      ∀ k, k < 4 - m.fall_timer → ¬ (l.getD k Tick.default).conj)

/-- Under the 4-tick protection hypothesis, a run from a state satisfying
the invariant ends in `NORMAL` or `POSSIBLE_FALL`: the machine never
reaches `CONFIRMED_FALL` or `ALERT`. -/
theorem safeInv_run (l : List Tick) (m : FallSM)
    (hH : NoConjNearSpike 4 l) (hI : SafeInv m l) :
    (FallSM.run m l).state = "NORMAL" ∨ (FallSM.run m l).state = "POSSIBLE_FALL" := by
  induction l generalizing m with
  | nil =>
    rcases hI with h | ⟨h, _, _⟩
    · exact Or.inl h
    · exact Or.inr h
  | cons x xs ih =>
    have hH' : NoConjNearSpike 4 xs := noConjNearSpike_tail 4 x xs hH
    have hstep : SafeInv (m.update x.spike x.posture x.inactive) xs := by
      rcases hI with hN | ⟨hP, ht, hprot⟩
      · by_cases hs : x.spike = true
        · right
          refine ⟨by simp [FallSM.update, hN, hs], by simp [FallSM.update, hN, hs], ?_⟩
          intro k hk
          have hk4 : k < 4 := by
            simp [FallSM.update, hN, hs] at hk
            omega
          by_cases hk' : k + 1 < (x :: xs).length
          · have := hH (k + 1) hk' 0 (by omega) (by omega)
              (by simpa [List.getD_cons_zero] using hs)
            simpa [List.getD_cons_succ] using this
          · exact getD_not_conj_of_ge xs k (by simp only [List.length_cons] at hk'; omega)
        · left
          have hs' : x.spike = false := by simpa using hs
          simp [FallSM.update, hN, hs']
      · have hnconj : ¬ (x.posture = "lying" ∧ x.inactive = true) := by
          have := hprot 0 (by omega)
          simpa [Tick.conj, List.getD_cons_zero] using this
        have hne : m.state ≠ "NORMAL" := by rw [hP]; decide
        by_cases h3 : m.fall_timer + 1 > 3
        · left
          simp [FallSM.update, hne, hP, hnconj, h3]
        · right
          refine ⟨by simp [FallSM.update, hne, hP, hnconj, h3],
                  by simp [FallSM.update, hne, hP, hnconj, h3]; omega, ?_⟩
          intro k hk
          have hk' : k + 1 < 4 - m.fall_timer := by
            simp [FallSM.update, hne, hP, hnconj, h3] at hk
            omega
          have := hprot (k + 1) hk'
          simp [FallSM.update, hne, hP, hnconj, h3, List.getD_cons_succ] at this ⊢
          exact this
    exact ih (m.update x.spike x.posture x.inactive) hH' hstep

/-- How `update` can land in `POSSIBLE_FALL`: either a spike was observed
in `NORMAL` (timer 0), or the machine already was in `POSSIBLE_FALL` and
the incremented timer is at most 3. -/
theorem update_pf_cases (m : FallSM) (x : Tick)
    (h : (m.update x.spike x.posture x.inactive).state = "POSSIBLE_FALL") :
    (m.state = "NORMAL" ∧ x.spike = true ∧
      (m.update x.spike x.posture x.inactive).fall_timer = 0) ∨
    (m.state = "POSSIBLE_FALL" ∧
      (m.update x.spike x.posture x.inactive).fall_timer = m.fall_timer + 1 ∧
      m.fall_timer + 1 ≤ 3) := by
  by_cases h1 : m.state = "NORMAL"
  · cases hs : x.spike
    · exfalso
      have hupd : m.update x.spike x.posture x.inactive = m := by
        rw [FallSM.update, if_pos h1, hs]
        simp
      rw [hupd, h1] at h
      exact absurd h (by decide)
    · exact Or.inl ⟨h1, rfl, by simp [FallSM.update, h1, hs]⟩
  · by_cases h2 : m.state = "POSSIBLE_FALL"
    · by_cases hc : x.posture = "lying" ∧ x.inactive = true
      · exfalso
        simp [FallSM.update, h1, h2, hc] at h
      · by_cases h3 : m.fall_timer + 1 > 3
        · exfalso
          simp [FallSM.update, h1, h2, hc, h3] at h
        · exact Or.inr ⟨h2, by simp [FallSM.update, h1, h2, hc, h3], by omega⟩
    · exfalso
      by_cases h4 : m.state = "CONFIRMED_FALL"
      · rw [FallSM.update, if_neg h1, if_neg h2, if_pos h4] at h
        simp at h
      · rw [FallSM.update, if_neg h1, if_neg h2, if_neg h4] at h
        exact h2 h

/-- A run that ends in `POSSIBLE_FALL` either saw a spike within the last
4 ticks, or already started in `POSSIBLE_FALL` close to the window end. -/
theorem run_pf_recent (l : List Tick) (m : FallSM)
    (hp : (FallSM.run m l).state = "POSSIBLE_FALL") :
    (∃ i < l.length, (l.getD i Tick.default).spike = true ∧ l.length ≤ i + 4) ∨
      (m.state = "POSSIBLE_FALL" ∧ (l = [] ∨ l.length + m.fall_timer ≤ 3)) := by
  induction l generalizing m with
  | nil => exact Or.inr ⟨hp, Or.inl rfl⟩
  | cons x xs ih =>
    have hp' : (FallSM.run (m.update x.spike x.posture x.inactive) xs).state
        = "POSSIBLE_FALL" := by simpa [FallSM.run] using hp
    rcases ih (m.update x.spike x.posture x.inactive) hp' with ⟨i, hi, hs, hb⟩ | ⟨hm', hlen⟩
    · refine Or.inl ⟨i + 1, by simp; omega, by simpa [List.getD_cons_succ] using hs, ?_⟩
      simp
      omega
    · rcases update_pf_cases m x hm' with ⟨_, hspike, htz⟩ | ⟨hP, htv, ht3⟩
      · refine Or.inl ⟨0, by simp, by simpa [List.getD_cons_zero] using hspike, ?_⟩
        rcases hlen with h | h
        · simp [h]
        · rw [htz] at h
          simp
          omega
      · refine Or.inr ⟨hP, Or.inr ?_⟩
        rcases hlen with h | h
        · simp [h]
          omega
        · rw [htv] at h
          simp
          omega

/-- C5 counterexample: the concrete input sequence spike, then three ticks
without the conjunction, then (lying ∧ inactive) at the 4th tick after the
spike.  The conjunction is never true within 3 ticks of a spike, yet the
machine reaches `CONFIRMED_FALL` (the `POSSIBLE_FALL` window actually
spans 4 ticks, because the conjunction is tested before the `counter > 3`
timeout). -/
theorem C5_counterexample :
    NoConjNearSpike 3
      [⟨true, "upright", false⟩, ⟨false, "upright", false⟩, ⟨false, "upright", false⟩,
       ⟨false, "upright", false⟩, ⟨false, "lying", true⟩] ∧
    (FallSM.run FallSM.init
      [⟨true, "upright", false⟩, ⟨false, "upright", false⟩, ⟨false, "upright", false⟩,
       ⟨false, "upright", false⟩, ⟨false, "lying", true⟩]).state = "CONFIRMED_FALL" := by
  constructor
  · decide
  · decide

/-- C5 (amended): for every input sequence in which the conjunction
(`posture == "lying"` and inactive) is never true within 4 ticks of a
spike, the machine never reaches `CONFIRMED_FALL` or `ALERT` at any point
of the run, and — provided the sequence extends at least 5 ticks past
every spike — it ends back in `NORMAL`. -/
theorem C5_amended (l : List Tick) (hH : NoConjNearSpike 4 l) :
    (∀ p q, l = p ++ q →
      (FallSM.run FallSM.init p).state ≠ "CONFIRMED_FALL" ∧
      (FallSM.run FallSM.init p).state ≠ "ALERT") ∧
    ((∀ i < l.length, (l.getD i Tick.default).spike = true → i + 5 ≤ l.length) →
      (FallSM.run FallSM.init l).state = "NORMAL") := by
  have hinit : SafeInv FallSM.init l := Or.inl rfl
  constructor
  · rintro p q rfl
    have hHp : NoConjNearSpike 4 p := by
      intro k hk i hi hw hs
      have hk' : k < (p ++ q).length := by simp; omega
      have := hH k hk' i hi hw
        (by rwa [List.getD_append _ _ _ _ (by omega : i < p.length)])
      rwa [List.getD_append _ _ _ _ hk] at this
    rcases safeInv_run p FallSM.init hHp (Or.inl rfl) with h | h <;>
      constructor <;> rw [h] <;> decide
  · intro hmargin
    rcases safeInv_run l FallSM.init hH hinit with h | h
    · exact h
    · exfalso
      rcases run_pf_recent l FallSM.init h with ⟨i, hi, hs, hb⟩ | ⟨hm, _⟩
      · have := hmargin i hi hs
        omega
      · exact absurd hm (by decide)

/-- C5 witness: a spike followed by four conjunction-free ticks satisfies
the 4-tick protection hypothesis and the spike-margin hypothesis, and the
machine ends in `NORMAL` without ever visiting `CONFIRMED_FALL`/`ALERT`. -/
theorem C5_amended_witness :
    (FallSM.run FallSM.init
      [⟨true, "upright", false⟩, ⟨false, "upright", false⟩, ⟨false, "upright", false⟩,
       ⟨false, "upright", false⟩, ⟨false, "upright", false⟩]).state = "NORMAL" :=
  (C5_amended
    [⟨true, "upright", false⟩, ⟨false, "upright", false⟩, ⟨false, "upright", false⟩,
     ⟨false, "upright", false⟩, ⟨false, "upright", false⟩] (by decide)).2 (by decide)

/-!
Part 2 embeds the backend medicine subsystem:
`src/backend/elderly_notifications.py` (class `ElderlyNotificationSystem`)
and `src/backend/medicine_reminder_system.py` (class
`MedicineReminderSystem`).  Python strings are modelled as `List Char`
(`Str`), so that Python's `str.split`, `int(...)` parsing and f-string
concatenation can be modelled character-exactly.  Python dicts are
modelled as insertion-ordered association lists with the operations
`dget?` (lookup), `dset` (assignment) and `ddel` (guarded deletion).
`datetime.now()` is modelled by `Instant`: the formatted date string plus
an absolute second count; `strftime("%H:%M")` is `Instant.hhmm` and
`timedelta.seconds` is `tdSecondsN`.  The JSON files behind
`load_medicines` / `save_medicines` and `data/active_notifications.json`
are fields of the `World` state.  Exceptions are modelled by `PyErr`
results threaded with the partially-mutated state, matching Python's
behaviour of keeping earlier side effects when an exception is raised.
-/

/-- Python `str`, modelled as its character list. -/
abbrev Str := List Char

/-- Python dict lookup (first binding wins; dict keys are unique). -/
def dget? {V : Type} : List (Str × V) → Str → Option V
  | [], _ => none
  | (k', v) :: t, k => if k' = k then some v else dget? t k

/-- Python dict assignment `d[k] = v`: replace the binding if the key is
present, else append it (insertion order preserved). -/
def dset {V : Type} : List (Str × V) → Str → V → List (Str × V)
  | [], k, v => [(k, v)]
  | (k', v') :: t, k, v => if k' = k then (k, v) :: t else (k', v') :: dset t k v

/-- Python guarded deletion `if k in d: del d[k]`: afterwards the key is
absent. -/
def ddel {V : Type} (m : List (Str × V)) (k : Str) : List (Str × V) :=
  m.filter (fun p => p.1 ≠ k)

/-- Python `str(n)` for a nonnegative int: its decimal digits. -/
def natStr (n : Nat) : Str := Nat.toDigits 10 n

/-- Python `s.split(sep)` with a one-character separator: splits on every
occurrence and keeps empty parts. -/
def pySplit (c : Char) : Str → List Str
  | [] => [[]]
  | x :: xs =>
    let r := pySplit c xs
    if x = c then [] :: r else (x :: r.headD []) :: r.tail

/-- Decimal value of a digit string. -/
def digitsVal (s : Str) : Nat := s.foldl (fun a c => a * 10 + (c.toNat - 48)) 0

/-- Python `int(s)`: succeeds exactly on an optional sign followed by a
nonempty digit string, else raises `ValueError` (modelled as `none`). -/
def pyInt? (s : Str) : Option Int :=
  match s with
  | '-' :: rest => if rest ≠ [] ∧ rest.all Char.isDigit then some (-(digitsVal rest : Int)) else none
  | _ => if s ≠ [] ∧ s.all Char.isDigit then some (digitsVal s : Int) else none

/-- Python string `<` (lexicographic by code point). -/
def strLtB : Str → Str → Bool
  | [], [] => false
  | [], _ :: _ => true
  | _ :: _, [] => false
  | a :: as, b :: bs => if a < b then true else if b < a then false else strLtB as bs

/-- Python string `<=`. -/
def strLeB (a b : Str) : Bool := !(strLtB b a)

/-- A `datetime.now()` instant: the formatted `"%Y-%m-%d"` date string and
an absolute second count (`sec % 86400` is the second of the day). -/
structure Instant where
  dateStr : Str
  sec : Nat
  deriving Repr, DecidableEq

/-- Zero-padded two-digit rendering used by `strftime`. -/
def pad2 (n : Nat) : Str := if n < 10 then '0' :: natStr n else natStr n

/-- `strftime("%H:%M")` of an instant. -/
def Instant.hhmm (t : Instant) : Str :=
  pad2 (t.sec % 86400 / 3600) ++ ':' :: pad2 (t.sec % 86400 % 3600 / 60)

/-- `(a - b).seconds` of two datetimes modelled by absolute seconds:
Python's `timedelta.seconds` is the mathematical remainder mod 86400. -/
def tdSecondsN (a b : Nat) : Nat := (((a : Int) - (b : Int)) % 86400).toNat

/-- Python exceptions relevant to this subsystem. -/
inductive PyErr where
  | keyError
  | valueError
  deriving Repr, DecidableEq

/-- One entry of a medicine's `confirmation_history`. -/
structure Confirmation where
  time_taken : Str
  taken : Bool
  timestamp : Nat
  ctype : Str
  deriving Repr, DecidableEq

/-- A medicine record as persisted by the backend.  Fields read with
`medicine.get(...)` are `Option`s with the source's defaults; `medicine['id']`
is a raising access, so `id` is an `Option` whose absence raises
`KeyError`. -/
structure Medicine where
  id : Option Nat
  medicine_name : Option Str
  dosage : Option Str
  times : List Str
  start_date : Option Str
  end_date : Option Str
  active : Option Bool
  confirmation_history : List Confirmation
  deriving Repr, DecidableEq

/-- An elderly profile entry (only the `name` is read here). -/
structure ElderlyInfo where
  name : Option Str
  deriving Repr, DecidableEq

/-- An `ElderlySession` as stored by `register_elderly_session`. -/
structure Session where
  device_info : Str
  last_active : Nat
  notifications_sent : List Str
  deriving Repr, DecidableEq

/-- The notification payload built by `send_elderly_notification`. -/
structure NotifData where
  elderly_id : Str
  medicine : Medicine
  message : Str
  ntype : Str
  timestamp : Nat
  voice_message : Str
  options : List Str
  device_info : Str
  deriving Repr, DecidableEq

/-- State of `ElderlyNotificationSystem` (`elderly_notifications.py`,
lines 16-19): the active-notification store and the session registry. -/
structure ENSystem where
  active_notifications : List (Str × NotifData)
  elderly_sessions : List (Str × Session)
  deriving Repr, DecidableEq

/-- `register_elderly_session(elderly_id, device_info)` (lines 21-28). -/
def ENSystem.register_elderly_session (ens : ENSystem) (eid : Str) (device_info : Str)
    (now : Nat) : ENSystem :=
  { ens with elderly_sessions := dset ens.elderly_sessions eid ⟨device_info, now, []⟩ }

/-- `unregister_elderly_session(elderly_id)` (lines 30-34). -/
def ENSystem.unregister_elderly_session (ens : ENSystem) (eid : Str) : ENSystem :=
  { ens with elderly_sessions := ddel ens.elderly_sessions eid }

/-- The `notification_data` dict built by `send_elderly_notification`
(lines 45-54); only `medicine.get(...)` (defaulted) accesses occur here. -/
def notifPayload (eid : Str) (medicine : Medicine) (now : Nat) (session : Session) : NotifData :=
  let nm := medicine.medicine_name.getD "Unknown".data
  let dos := medicine.dosage.getD "Unknown".data
  { elderly_id := eid
    medicine := medicine
    message := "Time to take your medicine: ".data ++ nm ++ " - ".data ++ dos
    ntype := "medicine_reminder".data
    timestamp := now
    voice_message := "Time to take your medicine. Please take ".data ++ dos
      ++ " of ".data ++ nm
    options := ["taken".data, "snooze".data]
    device_info := session.device_info }

/-- `send_elderly_notification(elderly_id, medicine)` (lines 36-64):
returns `False` and changes nothing when no session is registered;
otherwise builds the notification payload and stores it under the key
`f"{elderly_id}_{medicine['id']}"` (a raising access of `id`), returning
`True`. -/
def ENSystem.send_elderly_notification (ens : ENSystem) (eid : Str) (medicine : Medicine)
    (now : Nat) : Except PyErr (Bool × ENSystem) :=
  match dget? ens.elderly_sessions eid with
  | none => .ok (false, ens)
  | some session =>
    match medicine.id with
    | none => .error .keyError
    | some i =>
      .ok (true, { ens with
        active_notifications := dset ens.active_notifications (eid ++ '_' :: natStr i)
          (notifPayload eid medicine now session) })

/-- `clear_elderly_notification(elderly_id, medicine_id)` (lines 76-81). -/
def ENSystem.clear_elderly_notification (ens : ENSystem) (eid : Str) (mid : Nat) : ENSystem :=
  { ens with active_notifications := ddel ens.active_notifications (eid ++ '_' :: natStr mid) }

/-- The mutable world of the medicine subsystem: the
`MedicineReminderSystem` fields `active_reminders` (key to trigger time)
and `snoozed_reminders` (key to snooze deadline), the JSON notification
file written by `store_notification` / pruned by `clear_reminder`, the
shared `ElderlyNotificationSystem` instance, and the two persisted
documents behind `load_medicines` / `load_elderly`. -/
structure World where
  active_reminders : List (Str × Nat)
  snoozed_reminders : List (Str × Nat)
  notifFile : List (Str × NotifData)
  ens : ENSystem
  medicines : List (Str × List Medicine)
  elderly_data : List (Str × ElderlyInfo)
  deriving Repr, DecidableEq

/-- `snooze_reminder(key, minutes)` (lines 143-146): record the deadline
`now + minutes` in the snooze table. -/
def World.snooze_reminder (w : World) (now : Instant) (key : Str) (minutes : Nat) : World :=
  { w with snoozed_reminders := dset w.snoozed_reminders key (now.sec + minutes * 60) }

/-- `clear_reminder(key)` (lines 148-166): drop the key from
`active_reminders` and from the notifications file (both deletions are
guarded, so an absent key is a no-op). -/
def World.clear_reminder (w : World) (key : Str) : World :=
  { w with active_reminders := ddel w.active_reminders key,
           notifFile := ddel w.notifFile key }

/-- Append one confirmation to the first medicine whose `id` matches;
`none` when the loop finds no match or a raising `medicine['id']` access
aborts it (the surrounding `try` swallows the error before
`save_medicines` runs, so the store is unchanged). -/
def markFirst (now : Instant) (medicine_id : Nat) (taken : Bool) (ctype : Str) :
    List Medicine → Option (List Medicine)
  | [] => none
  | m :: rest =>
    match m.id with
    | none => none
    | some i =>
      if i = medicine_id then
        some ({ m with confirmation_history :=
          m.confirmation_history ++ [⟨now.hhmm, taken, now.sec, ctype⟩] } :: rest)
      else (markFirst now medicine_id taken ctype rest).map (m :: ·)

/-- `mark_medicine_taken` / `mark_medicine_missed` (lines 97-141): load
the medicines, append a confirmation entry to the matching medicine and
save; on no match or an internal exception nothing is persisted. -/
def World.markMedicine (w : World) (now : Instant) (eid : Str) (medicine_id : Nat)
    (taken : Bool) (ctype : Str) : World :=
  match dget? w.medicines eid with
  | none => w
  | some meds =>
    match markFirst now medicine_id taken ctype meds with
    | none => w
    | some meds' => { w with medicines := dset w.medicines eid meds' }

/-- `handle_response(elderly_id, medicine_id, response)` (lines 78-95). -/
def World.handle_response (w : World) (now : Instant) (eid : Str) (medicine_id : Nat)
    (response : Str) : World :=
  let key := eid ++ '_' :: natStr medicine_id
  if response = "taken".data then
    (w.markMedicine now eid medicine_id true "automatic_reminder".data).clear_reminder key
  else if response = "snooze".data then
    w.snooze_reminder now key 2
  else if response = "not_taken".data then
    (w.markMedicine now eid medicine_id false "missed_dose".data).clear_reminder key
  else w

/-- `trigger_medicine_reminder(elderly_id, medicine, elderly_info)`
(lines 248-269): play the voice alert (no state) and send the device
notification through the shared `ElderlyNotificationSystem`; returns
whether the elderly device was notified. -/
def World.trigger_medicine_reminder (w : World) (now : Instant) (eid : Str)
    (medicine : Medicine) : Except PyErr (Bool × World) :=
  match w.ens.send_elderly_notification eid medicine now.sec with
  | .error e => .error e
  | .ok (sent, ens') => .ok (sent, { w with ens := ens' })

/-- The inner loop of `check_snoozed_reminders` (lines 236-240): find the
medicine whose `id` equals `int(medicine_id)` and re-trigger it.  The
raising accesses are `medicine['id']` (KeyError when absent) and
`int(medicine_id)` (ValueError on a non-integer string), evaluated in
that order for each medicine.  Returns the updated world and the
re-triggered key, or the exception. -/
def snoozedFind (now : Instant) (w : World) (eid midS : Str) :
    List Medicine → (World × Option Str) × Option PyErr
  | [] => ((w, none), none)
  | m :: rest =>
    match m.id with
    | none => ((w, none), some .keyError)
    | some i =>
      match pyInt? midS with
      | none => ((w, none), some .valueError)
      | some v =>
        if (i : Int) = v then
          match w.trigger_medicine_reminder now eid m with
          | .error e => ((w, none), some e)
          | .ok (_, w') => ((w', some (eid ++ '_' :: natStr i)), none)
        else snoozedFind now w eid midS rest

/-- The loop of `check_snoozed_reminders` (lines 228-242) over a snapshot
of the snooze table: for every due entry, unpack
`elderly_id, medicine_id = key.split('_')` (ValueError unless exactly two
parts), re-trigger when the elderly and its medicines exist, and collect
the key for removal.  An exception aborts the loop, keeping the state
mutated so far and skipping all removals. -/
def snoozedLoop (now : Instant) :
    World → List Str → List Str → List (Str × Nat) → World × List Str × List Str × Option PyErr
  | w, evts, toRemove, [] => (w, evts, toRemove, none)
  | w, evts, toRemove, e :: rest =>
    if now.sec ≥ e.2 then
      match pySplit '_' e.1 with
      | [eidS, midS] =>
        match dget? w.elderly_data eidS, dget? w.medicines eidS with
        | some _, some meds =>
          match snoozedFind now w eidS midS meds with
          | ((w', evt), none) => snoozedLoop now w' (evts ++ evt.toList) (toRemove ++ [e.1]) rest
          | ((w', evt), some err) => (w', evts ++ evt.toList, toRemove, some err)
        | _, _ => snoozedLoop now w evts (toRemove ++ [e.1]) rest
      | _ => (w, evts, toRemove, some .valueError)
    else snoozedLoop now w evts toRemove rest

/-- `check_snoozed_reminders()` (lines 223-246): run the loop, then — only
when it completed without an exception — delete the processed keys from
the snooze table.  Returns the world, the re-triggered keys, and the
uncaught exception if any. -/
def check_snoozed_reminders (now : Instant) (w : World) : World × List Str × Option PyErr :=
  match snoozedLoop now w [] [] w.snoozed_reminders with
  | (w', evts, toRemove, none) =>
    ({ w' with snoozed_reminders := toRemove.foldl (fun s k => ddel s k) w'.snoozed_reminders },
     evts, none)
  | (w', evts, _, some err) => (w', evts, some err)

/-- Truthiness of an optional string (`if start_date and end_date`). -/
def truthy (o : Option Str) : Bool :=
  match o with
  | some s => !s.isEmpty
  | none => false

/-- The `times` loop of `check_medicine_times` (lines 201-215): for every
listed time equal to the current `"%H:%M"`, build the key
`f"{elderly_id}_{medicine['id']}"` (raising access) and either trigger a
fresh reminder, or — when the stored trigger time is more than 120
seconds old and the device notification is still active — re-trigger. -/
def timesLoop (now : Instant) (eid : Str) (m : Medicine) :
    World → List Str → List Str → World × List Str × Option PyErr
  | w, evts, [] => (w, evts, none)
  | w, evts, mt :: rest =>
    if mt = now.hhmm then
      match m.id with
      | none => (w, evts, some .keyError)
      | some i =>
        let key := eid ++ '_' :: natStr i
        match dget? w.active_reminders key with
        | none =>
          match w.trigger_medicine_reminder now eid m with
          | .error e => (w, evts, some e)
          | .ok (_, w') =>
            timesLoop now eid m
              { w' with active_reminders := dset w'.active_reminders key now.sec }
              (evts ++ [key]) rest
        | some stored =>
          if tdSecondsN now.sec stored > 120 then
            if (dget? w.ens.active_notifications key).isSome then
              match w.trigger_medicine_reminder now eid m with
              | .error e => (w, evts, some e)
              | .ok (_, w') =>
                timesLoop now eid m
                  { w' with active_reminders := dset w'.active_reminders key now.sec }
                  (evts ++ [key]) rest
            else timesLoop now eid m w evts rest
          else timesLoop now eid m w evts rest
    else timesLoop now eid m w evts rest

/-- The medicine loop of `check_medicine_times` (lines 187-215): skip
inactive medicines and those outside the `[start_date, end_date]` range
(only checked when both bounds are truthy), then run the times loop. -/
def medsLoop (now : Instant) (eid : Str) :
    World → List Str → List Medicine → World × List Str × Option PyErr
  | w, evts, [] => (w, evts, none)
  | w, evts, m :: rest =>
    if m.active.getD true = false then medsLoop now eid w evts rest
    else
      if truthy m.start_date ∧ truthy m.end_date then
        if strLeB (m.start_date.getD []) now.dateStr ∧ strLeB now.dateStr (m.end_date.getD [])
        then
          match timesLoop now eid m w evts m.times with
          | (w', evts', none) => medsLoop now eid w' evts' rest
          | (w', evts', some err) => (w', evts', some err)
        else medsLoop now eid w evts rest
      else
        match timesLoop now eid m w evts m.times with
        | (w', evts', none) => medsLoop now eid w' evts' rest
        | (w', evts', some err) => (w', evts', some err)

/-- The elderly loop of `check_medicine_times` (lines 181-215): skip
elderly ids with no profile, else process their medicine list. -/
def elderlyLoop (now : Instant) :
    World → List Str → List (Str × List Medicine) → World × List Str × Option PyErr
  | w, evts, [] => (w, evts, none)
  | w, evts, (eid, meds) :: rest =>
    if (dget? w.elderly_data eid).isNone then elderlyLoop now w evts rest
    else
      match medsLoop now eid w evts meds with
      | (w', evts', none) => elderlyLoop now w' evts' rest
      | (w', evts', some err) => (w', evts', some err)

/-- One iteration of the `while True` scan of `check_medicine_times`
(lines 170-221), i.e. the body of its `try`: first
`check_snoozed_reminders`, then the schedule loops.  The except-clause at
scan level catches any exception, so the iteration returns the
partially-updated world, the keys triggered before the exception, and the
exception itself (logged in the source). -/
def scanOnce (now : Instant) (w : World) : World × List Str × Option PyErr :=
  match check_snoozed_reminders now w with
  | (w1, evts1, some err) => (w1, evts1, some err)
  | (w1, evts1, none) =>
    match elderlyLoop now w1 evts1 w1.medicines with
    | (w2, evts2, err2) => (w2, evts2, err2)

/-- The scheduler loop: one `scanOnce` per listed instant.  The per-scan
`except` keeps the loop alive, so every listed scan executes. -/
def runScans (w : World) : List Instant → World × List (List Str × Option PyErr)
  | [] => (w, [])
  | t :: ts =>
    let step := scanOnce t w
    let rest := runScans step.1 ts
    (rest.1, (step.2.1, step.2.2) :: rest.2)

/-- Lookup after assignment of the same key. -/
theorem dget?_dset_self {V : Type} (m : List (Str × V)) (k : Str) (v : V) :
    dget? (dset m k v) k = some v := by
  induction m with
  | nil => simp [dget?, dset]
  | cons p t ih =>
    by_cases h : p.1 = k
    · simp [dget?, dset, h]
    · simp [dget?, dset, h, ih]

/-- Lookup after deletion of the same key. -/
theorem dget?_ddel_self {V : Type} (m : List (Str × V)) (k : Str) :
    dget? (ddel m k) k = none := by
  induction m with
  | nil => simp [dget?, ddel]
  | cons p t ih =>
    by_cases h : p.1 = k
    · simpa [ddel, h] using ih
    · simpa [ddel, dget?, h] using ih

/-- Multiplicity of a key after assignment: one if it was absent, else
unchanged. -/
theorem count_keys_dset {V : Type} (m : List (Str × V)) (k : Str) (v : V) :
    ((dset m k v).map Prod.fst).count k = max 1 ((m.map Prod.fst).count k) := by
  induction m with
  | nil => simp [dset]
  | cons p t ih =>
    rcases p with ⟨pk, pv⟩
    by_cases h : pk = k
    · subst h
      simp only [dset]
      rw [if_pos trivial]
      simp only [List.map_cons, List.count_cons_self]
      omega
    · have hbeq : (pk == k) = false := beq_eq_false_iff_ne.mpr h
      simp only [dset, if_neg h, List.map_cons, List.count_cons, hbeq, Bool.false_eq_true,
        if_false, Nat.add_zero, ih]

/-- C6: `send_elderly_notification(elderly_id, medicine)` with no session
registered for `elderly_id` returns `False` and leaves the
active-notification store unchanged; after
`register_elderly_session(elderly_id, device_info)` the same call returns
`True` and stores exactly one Notification under the key
`"{elderly_id}_{itemId}"` (given the dict invariant that keys were unique
before). -/
theorem C6_send_requires_session (ens : ENSystem) (eid : Str) (med : Medicine) (now : Nat) :
    (dget? ens.elderly_sessions eid = none →
      ens.send_elderly_notification eid med now = .ok (false, ens)) ∧
    (∀ dev i, med.id = some i →
      ∃ ens', (ens.register_elderly_session eid dev now).send_elderly_notification eid med now
          = .ok (true, ens') ∧
        (dget? ens'.active_notifications (eid ++ '_' :: natStr i)).isSome = true ∧
        ens'.elderly_sessions = (ens.register_elderly_session eid dev now).elderly_sessions ∧
        ((ens.active_notifications.map Prod.fst).count (eid ++ '_' :: natStr i) ≤ 1 →
          (ens'.active_notifications.map Prod.fst).count (eid ++ '_' :: natStr i) = 1)) := by
  constructor
  · intro h
    simp [ENSystem.send_elderly_notification, h]
  · intro dev i hid
    refine ⟨⟨dset ens.active_notifications (eid ++ '_' :: natStr i)
        (notifPayload eid med now ⟨dev, now, []⟩),
      dset ens.elderly_sessions eid ⟨dev, now, []⟩⟩, ?_, ?_, rfl, ?_⟩
    · simp [ENSystem.send_elderly_notification, ENSystem.register_elderly_session,
        dget?_dset_self, hid]
    · simp [dget?_dset_self]
    · intro hle
      simp only [count_keys_dset]
      omega

/-- A concrete medicine record used by witnesses. -/
def medAspirin : Medicine :=
  { id := some 7, medicine_name := some "Aspirin".data, dosage := some "1 pill".data,
    times := [], start_date := none, end_date := none, active := some true,
    confirmation_history := [] }

/-- C6 witness: with no session, sending to `"bob"` fails and changes
nothing; after registering, it succeeds and the key is stored. -/
theorem C6_send_requires_session_witness :
    (ENSystem.mk [] []).send_elderly_notification "bob".data medAspirin 5
        = .ok (false, ENSystem.mk [] []) ∧
    ∃ ens', ((ENSystem.mk [] []).register_elderly_session "bob".data "tablet".data
        5).send_elderly_notification "bob".data medAspirin 5 = .ok (true, ens') ∧
      (dget? ens'.active_notifications ("bob".data ++ '_' :: natStr 7)).isSome = true := by
  have h := C6_send_requires_session (ENSystem.mk [] []) "bob".data medAspirin 5
  refine ⟨h.1 rfl, ?_⟩
  obtain ⟨ens', h1, h2, _, _⟩ := h.2 "tablet".data 7 rfl
  exact ⟨ens', h1, h2⟩

/-- C7: a `snooze` response to a medicine reminder removes nothing — it
leaves the notifications file, the device-notification system and the
reminder table untouched and only records the deadline `now + 2 minutes`
in the snooze table — while a `taken` or `not_taken` response always
removes the Notification entry and the active reminder for that key. -/
theorem C7_snooze_keeps_taken_removes (w : World) (now : Instant) (eid : Str) (mid : Nat) :
    ((w.handle_response now eid mid "snooze".data).notifFile = w.notifFile ∧
     (w.handle_response now eid mid "snooze".data).ens = w.ens ∧
     (w.handle_response now eid mid "snooze".data).active_reminders = w.active_reminders ∧
     (w.handle_response now eid mid "snooze".data).snoozed_reminders =
       dset w.snoozed_reminders (eid ++ '_' :: natStr mid) (now.sec + 120)) ∧
    (∀ resp, resp = "taken".data ∨ resp = "not_taken".data →
      dget? (w.handle_response now eid mid resp).notifFile (eid ++ '_' :: natStr mid) = none ∧
      dget? (w.handle_response now eid mid resp).active_reminders (eid ++ '_' :: natStr mid)
        = none) := by
  constructor
  · have e1 : ¬ ("snooze".data : Str) = "taken".data := by decide
    refine ⟨?_, ?_, ?_, ?_⟩ <;> simp [World.handle_response, World.snooze_reminder, e1]
  · rintro resp (rfl | rfl)
    · simp [World.handle_response, World.clear_reminder, dget?_ddel_self]
    · have e1 : ¬ ("not_taken".data : Str) = "taken".data := by decide
      have e2 : ¬ ("not_taken".data : Str) = "snooze".data := by decide
      simp [World.handle_response, World.clear_reminder, dget?_ddel_self, e1, e2]

/-- A concrete notification payload used by witnesses. -/
def notifSample : NotifData :=
  { elderly_id := "amy".data, medicine := medAspirin,
    message := "m".data, ntype := "medicine_reminder".data, timestamp := 0,
    voice_message := "v".data, options := ["taken".data, "snooze".data],
    device_info := "tablet".data }

/-- A concrete world whose notification file holds the key `"amy_3"`. -/
def worldAmy : World :=
  { active_reminders := [("amy".data ++ '_' :: natStr 3, 40)],
    snoozed_reminders := [],
    notifFile := [("amy".data ++ '_' :: natStr 3, notifSample)],
    ens := ENSystem.mk [] [],
    medicines := [], elderly_data := [] }

/-- C7 witness: a `taken` response on a concrete world removes the stored
notification and the active reminder; a `snooze` response keeps the file. -/
theorem C7_snooze_keeps_taken_removes_witness :
    dget? (worldAmy.handle_response ⟨"2026-10-12".data, 100⟩ "amy".data 3
        "taken".data).notifFile ("amy".data ++ '_' :: natStr 3) = none ∧
    (worldAmy.handle_response ⟨"2026-10-12".data, 100⟩ "amy".data 3
        "snooze".data).notifFile = worldAmy.notifFile := by
  have h := C7_snooze_keeps_taken_removes worldAmy ⟨"2026-10-12".data, 100⟩ "amy".data 3
  exact ⟨(h.2 "taken".data (Or.inl rfl)).1, h.1.1⟩

/-- The elderly id of the C8 schedule scenario. -/
def c8eid : Str := "elderly1".data

/-- A schedule entry with `times=["08:00"]` and a date range containing
2026-10-12. -/
def c8med : Medicine :=
  { id := some 1, medicine_name := some "Aspirin".data, dosage := some "1 pill".data,
    times := ["08:00".data], start_date := some "2026-10-01".data,
    end_date := some "2026-10-31".data, active := some true, confirmation_history := [] }

/-- Initial world of the scenario: registered session, one schedule, no
pending reminders. -/
def c8w0 : World :=
  { active_reminders := [], snoozed_reminders := [], notifFile := [],
    ens := ⟨[], [(c8eid, ⟨"tablet".data, 0, []⟩)]⟩,
    medicines := [(c8eid, [c8med])],
    elderly_data := [(c8eid, ⟨some "Alice".data⟩)] }

/-- 08:00:00, 08:00:30 and 08:03:00 on 2026-10-12 (seconds of day). -/
def c8t1 : Instant := ⟨"2026-10-12".data, 28800⟩
def c8t2 : Instant := ⟨"2026-10-12".data, 28830⟩
def c8t3 : Instant := ⟨"2026-10-12".data, 28980⟩

/-- World after the 08:00:00 scan. -/
def c8w1 : World := (scanOnce c8t1 c8w0).1

/-- World after the elderly snoozes the reminder at 08:00:10. -/
def c8w2 : World := c8w1.handle_response ⟨"2026-10-12".data, 28810⟩ c8eid 1 "snooze".data

/-- World after the 08:00:30 scan. -/
def c8w3 : World := (scanOnce c8t2 c8w2).1

/-- C8: with `times=["08:00"]` and today in range, the 08:00:00 scan
triggers exactly one reminder; the 08:00:30 scan triggers none (same key
inside the 2-minute dedup window); after a snooze at 08:00:10, the
08:03:00 scan re-triggers exactly once (the snooze deadline 08:02:10 has
passed, and `"08:03"` no longer matches the schedule time). -/
theorem C8_scan_dedup_snooze :
    (scanOnce c8t1 c8w0).2 = ([c8eid ++ '_' :: natStr 1], none) ∧
    (scanOnce c8t2 c8w2).2 = ([], none) ∧
    (scanOnce c8t3 c8w3).2 = ([c8eid ++ '_' :: natStr 1], none) := by
  refine ⟨?_, ?_, ?_⟩ <;> decide

/-- The C9 scenario: two schedule entries for one elderly id, the first
malformed (its dict has no `'id'` key, so `medicine['id']` raises
`KeyError`), the second valid and due. -/
def c9eid : Str := "john".data

def c9badMed : Medicine :=
  { id := none, medicine_name := some "Bad".data, dosage := none,
    times := ["09:00".data], start_date := none, end_date := none,
    active := some true, confirmation_history := [] }

def c9goodMed : Medicine :=
  { id := some 2, medicine_name := some "Good".data, dosage := none,
    times := ["09:00".data], start_date := none, end_date := none,
    active := some true, confirmation_history := [] }

def c9t : Instant := ⟨"2026-10-12".data, 32400⟩

def c9w : World :=
  { active_reminders := [], snoozed_reminders := [], notifFile := [],
    ens := ⟨[], [(c9eid, ⟨"phone".data, 0, []⟩)]⟩,
    medicines := [(c9eid, [c9badMed, c9goodMed])],
    elderly_data := [(c9eid, ⟨some "John".data⟩)] }

/-- The same world with only the valid entry. -/
def c9wGoodOnly : World :=
  { c9w with medicines := [(c9eid, [c9goodMed])] }

/-- C9 counterexample: the exception raised while processing the first
schedule entry aborts the whole scan — the valid second entry, which
triggers when processed on its own, produces no reminder in that scan.
The `try/except` of `check_medicine_times` wraps the entire scan body, not
each entry. -/
theorem C9_counterexample :
    (scanOnce c9t c9w).2 = ([], some PyErr.keyError) ∧
    (scanOnce c9t c9wGoodOnly).2 = ([c9eid ++ '_' :: natStr 2], none) := by
  refine ⟨?_, ?_⟩ <;> decide

/-- C9 (amended): an exception while processing one schedule entry is
caught at scan level: it skips the remaining entries of that scan
iteration, but it never terminates the scheduler loop — every scheduled
scan executes and returns a (possibly caught-error) result, and the next
iteration of the failing scenario runs again. -/
theorem C9_amended (ts : List Instant) (w : World) :
    (runScans w ts).2.length = ts.length ∧
    (runScans c9w [c9t, c9t]).2.map Prod.snd
      = [some PyErr.keyError, some PyErr.keyError] := by
  constructor
  · induction ts generalizing w with
    | nil => simp [runScans]
    | cons t ts ih => simp [runScans, ih]
  · decide

/-- `split` never returns an empty list of parts. -/
theorem pySplit_ne_nil (c : Char) (s : Str) : pySplit c s ≠ [] := by
  cases s with
  | nil => simp [pySplit]
  | cons x xs =>
    by_cases h : x = c <;> simp [pySplit, h]

/-- The number of parts is the number of separators plus one. -/
theorem pySplit_length (c : Char) (s : Str) :
    (pySplit c s).length = s.count c + 1 := by
  induction s with
  | nil => simp [pySplit]
  | cons x xs ih =>
    rcases hr : pySplit c xs with _ | ⟨p, ps⟩
    · exact absurd hr (pySplit_ne_nil c xs)
    · rw [hr] at ih
      by_cases h : x = c
      · subst h
        simp only [pySplit, hr]
        rw [if_pos trivial]
        simp only [List.length_cons, List.count_cons_self]
        simp only [List.length_cons] at ih
        omega
      · have hbeq : (x == c) = false := beq_eq_false_iff_ne.mpr h
        simp only [pySplit, hr, if_neg h, List.length_cons, List.count_cons, hbeq,
          Bool.false_eq_true, if_false, Nat.add_zero, List.tail_cons]
        simp only [List.length_cons] at ih
        omega

/-- `split` on a string free of the separator returns the whole string. -/
theorem pySplit_no_sep (c : Char) (b : Str) (hb : c ∉ b) : pySplit c b = [b] := by
  induction b with
  | nil => simp [pySplit]
  | cons y ys ih =>
    obtain ⟨h1, h2⟩ : ¬ c = y ∧ c ∉ ys := by simpa using hb
    have hy : ¬ y = c := fun e => h1 e.symm
    simp [pySplit, hy, ih h2]

/-- `key.split('_')` on `f"{a}_{b}"` with separator-free `a`, `b` gives
exactly the two parts. -/
theorem pySplit_key (c : Char) (a b : Str) (ha : c ∉ a) (hb : c ∉ b) :
    pySplit c (a ++ c :: b) = [a, b] := by
  induction a with
  | nil => simp [pySplit, pySplit_no_sep c b hb]
  | cons x xs ih =>
    obtain ⟨h1, h2⟩ : ¬ c = x ∧ c ∉ xs := by simpa using ha
    have hx : ¬ x = c := fun e => h1 e.symm
    simp [pySplit, hx, ih h2]

/-- C10: `check_snoozed_reminders` recovers `(elderly_id, medicine_id)` by
`key.split('_')` and compares stored ids against `int(medicine_id)`, so
for a due snoozed reminder whose elderly id contains an underscore the
tuple unpacking raises `ValueError`, and for one whose medicine-id part
is not an integer string the `int(...)` conversion raises `ValueError`
(once the comparison against an existing medicine is reached); in both
cases the scan's snoozed processing aborts with the error, nothing is
re-triggered, and the state (including the stale snooze entry) is left
unchanged. -/
theorem C10_snooze_key_parsing (w : World) (now : Instant) (eid mid : Str) (t0 : Nat)
    (hsn : w.snoozed_reminders = [(eid ++ '_' :: mid, t0)]) (hdue : now.sec ≥ t0) :
    ('_' ∈ eid →
      check_snoozed_reminders now w = (w, [], some PyErr.valueError)) ∧
    ('_' ∉ eid → '_' ∉ mid → pyInt? mid = none →
      ∀ info m rest j, dget? w.elderly_data eid = some info →
        dget? w.medicines eid = some (m :: rest) → m.id = some j →
        check_snoozed_reminders now w = (w, [], some PyErr.valueError)) := by
  constructor
  · intro hu
    have hlen : 3 ≤ (pySplit '_' (eid ++ '_' :: mid)).length := by
      rw [pySplit_length]
      have h1 : 1 ≤ eid.count '_' := List.count_pos_iff.mpr hu
      simp [List.count_append, List.count_cons_self]
      omega
    rcases hsp : pySplit '_' (eid ++ '_' :: mid) with _ | ⟨p1, _ | ⟨p2, _ | ⟨p3, ps⟩⟩⟩
    · exact absurd hsp (pySplit_ne_nil _ _)
    · rw [hsp] at hlen; simp at hlen
    · rw [hsp] at hlen; simp at hlen
    · simp [check_snoozed_reminders, snoozedLoop, hsn, hdue, hsp]
  · intro hue hum hint info m rest j hinfo hmeds hid
    have hsp : pySplit '_' (eid ++ '_' :: mid) = [eid, mid] := pySplit_key '_' eid mid hue hum
    simp [check_snoozed_reminders, snoozedLoop, hsn, hdue, hsp, hinfo, hmeds,
      snoozedFind, hid, hint]

/-- A world holding one due snoozed reminder whose key `"a_b_1"` embeds an
elderly id with an underscore. -/
def c10w : World :=
  { active_reminders := [], snoozed_reminders := [("a_b".data ++ '_' :: "1".data, 5)],
    notifFile := [], ens := ⟨[], []⟩, medicines := [], elderly_data := [] }

/-- C10 witness: the due snoozed reminder keyed `"a_b_1"` makes
`check_snoozed_reminders` raise `ValueError` and re-trigger nothing. -/
theorem C10_snooze_key_parsing_witness :
    check_snoozed_reminders ⟨"2026-10-12".data, 10⟩ c10w
      = (c10w, [], some PyErr.valueError) :=
  (C10_snooze_key_parsing c10w ⟨"2026-10-12".data, 10⟩ "a_b".data "1".data 5 rfl
    (by decide)).1 (by decide)
